import Mathlib

/-!
Verification development for the `dhcp4` package of the agile-dhcp repository:
a shallow embedding of its byte codec, DHCP option codec, message codec and
client session handler, together with theorems about the specified behavior.

Conventions of the embedding:
* Go byte slices are `List Nat` (each element a byte value below 256 where the
  source guarantees it).
* Go machine integers are `Nat`, with `% 256` / `% 65536` / `% 2^32` made
  explicit exactly where the source relies on wrapping.
* A Go runtime panic (index out of range on an empty slice) is modelled by
  `Option`, with `none` marking the panic; total Go functions stay total.
* `bytes.Buffer.Next n` returns at most `n` bytes, fewer when the buffer is
  short, without failing; this is `bufNext` below.
-/

namespace Dhcp4

/-- Go `bytes.Buffer.Next n`: take up to `n` bytes, return them together with
the rest of the buffer. Never fails; a short buffer yields a short slice. -/
def bufNext (n : Nat) (b : List Nat) : List Nat × List Nat :=
  (b.take n, b.drop n)

/-- Go slice indexing `b[0]` as done on the result of `buf.Next(1)`:
panics (modelled as `none`) when the slice is empty. -/
def next1 (b : List Nat) : Option (Nat × List Nat) :=
  match b with
  | [] => none
  | a :: rest => some (a, rest)

/-- `Uint16ToBytes`: big-endian bytes of a 16-bit value
(`byte(data >> 8)`, `byte(data)`). -/
def Uint16ToBytes (data : Nat) : List Nat :=
  [data / 256 % 256, data % 256]

/-- `Uint32ToBytes`: big-endian bytes of a 32-bit value. -/
def Uint32ToBytes (data : Nat) : List Nat :=
  [data / 16777216 % 256, data / 65536 % 256, data / 256 % 256, data % 256]

/-- `BytesToUint16`: the source checks `len(data) != 2` and then reads
`data[0]`, so a two-byte slice decodes big-endian, any other nonempty slice
yields its first byte, and an empty slice panics (`none`). -/
def BytesToUint16 (data : List Nat) : Option Nat :=
  match data with
  | [a, b] => some (a * 256 + b)
  | [] => none
  | a :: _ => some a

/-- `BytesToUint32`: fewer than four bytes yields `0`; otherwise the first
four bytes decode big-endian. Total, as in the source. -/
def BytesToUint32 (data : List Nat) : Nat :=
  match data with
  | a :: b :: c :: d :: _ => a * 16777216 + b * 65536 + c * 256 + d
  | _ => 0

/-- DHCP message type values (Go `MessageType`, a `uint8`). -/
abbrev MessageType := Nat

def MessageTypeDiscover : MessageType := 1
def MessageTypeOffer : MessageType := 2
def MessageTypeRequest : MessageType := 3
def MessageTypeDecline : MessageType := 4
def MessageTypeAck : MessageType := 5
def MessageTypeNak : MessageType := 6
def MessageTypeRelease : MessageType := 7

/-- The Go `OptionInter` interface and its implementing structs
(`Option1`, `Option3`, ..., `Option255`) as one closed variant type.
Each constructor carries the struct's fields, including its `Code` byte.
`Option138` appears in `Message.Decode` but its struct definition is not
among the provided source files; it is carried here as a code, a length and
the raw consumed payload. -/
inductive OptionInter where
  | Option1 (code length : Nat) (subnetMask : List Nat)
  | Option3 (code length : Nat) (routers : List (List Nat))
  | Option6 (code length : Nat) (domainNameServers : List (List Nat))
  | Option12 (code length : Nat) (hostName : List Nat)
  | Option50 (code length : Nat) (address : List Nat)
  | Option51 (code length : Nat) (leaseTime : List Nat)
  | Option53 (code length : Nat) (messageType : MessageType)
  | Option54 (code length : Nat) (serverIdentifier : List Nat)
  | Option55 (code length : Nat) (parameters : List Nat)
  | Option57 (code length : Nat) (maximumMessageSize : List Nat)
  | Option58 (code length : Nat) (renewalTime : List Nat)
  | Option59 (code length : Nat) (rebindingTime : List Nat)
  | Option61 (code length hardwareType : Nat) (clientIdentifier : List Nat)
  | Option108 (code length : Nat) (value : List Nat)
  | Option138 (code length : Nat) (value : List Nat)
  | Option255 (code : Nat)
deriving DecidableEq

/-- Each struct's `GetCode` method: returns the stored `Code` field. -/
def OptionInter.GetCode : OptionInter → Nat
  | .Option1 c _ _ => c
  | .Option3 c _ _ => c
  | .Option6 c _ _ => c
  | .Option12 c _ _ => c
  | .Option50 c _ _ => c
  | .Option51 c _ _ => c
  | .Option53 c _ _ => c
  | .Option54 c _ _ => c
  | .Option55 c _ _ => c
  | .Option57 c _ _ => c
  | .Option58 c _ _ => c
  | .Option59 c _ _ => c
  | .Option61 c _ _ _ => c
  | .Option108 c _ _ => c
  | .Option138 c _ _ => c
  | .Option255 c => c

/-- Each struct's `Encode` method: code byte, length byte (except for the
end option), then the payload bytes. -/
def OptionInter.Encode : OptionInter → List Nat
  | .Option1 c l mask => c :: l :: mask
  | .Option3 c l routers => c :: l :: routers.flatten
  | .Option6 c l servers => c :: l :: servers.flatten
  | .Option12 c l h => c :: l :: h
  | .Option50 c l a => c :: l :: a
  | .Option51 c l t => c :: l :: t
  | .Option53 c l mt => [c, l, mt]
  | .Option54 c l s => c :: l :: s
  | .Option55 c l p => c :: l :: p
  | .Option57 c l m => c :: l :: m
  | .Option58 c l r => c :: l :: r
  | .Option59 c l r => c :: l :: r
  | .Option61 c l ht ci => c :: l :: ht :: ci
  | .Option108 c l v => c :: l :: v
  | .Option138 c l v => c :: l :: v
  | .Option255 c => [c]

/-- Bytes of a Lean string, standing for Go's `[]byte(string)` on the ASCII
host names this client uses. -/
def strBytes (s : String) : List Nat :=
  s.data.map Char.toNat

/-- `GenOption12`: host name option from a string. -/
def GenOption12 (hostName : String) : OptionInter :=
  .Option12 12 (strBytes hostName).length (strBytes hostName)

/-- `GenOption50`: requested IP address option. -/
def GenOption50 (address : List Nat) : OptionInter :=
  .Option50 50 4 address

/-- `GenOption51`: lease time option from a 32-bit second count. -/
def GenOption51 (t : Nat) : OptionInter :=
  .Option51 51 4 (Uint32ToBytes t)

/-- `GenOption53`: message type option. -/
def GenOption53 (c : MessageType) : OptionInter :=
  .Option53 53 1 c

/-- `GenOption54` is called by `Conn.Decline` and `Conn.Release` but its
definition is not among the provided source files. Modelled from the spec:
the server-identifier option has code 54 and length 4 and carries the given
4-byte address. -/
def GenOption54 (address : List Nat) : OptionInter :=
  .Option54 54 4 address

/-- `GenOption55`: the default parameter request list. -/
def GenOption55 : OptionInter :=
  .Option55 55 10 [1, 3, 6, 15, 46, 108, 114, 119, 121, 252]

/-- `GenOption57`: maximum DHCP message size option from a 16-bit value. -/
def GenOption57 (t : Nat) : OptionInter :=
  .Option57 57 2 (Uint16ToBytes t)

/-- `GenOption61`: client identifier option, hardware type 1 (Ethernet),
declared length 7. -/
def GenOption61 (mac : List Nat) : OptionInter :=
  .Option61 61 7 1 mac

/-- `GenOption255`: the end option. -/
def GenOption255 : OptionInter :=
  .Option255 255

/-- `Option1.Decode`, called on `buf.Next(5)`: `Length` is `b[0]` (panic when
the slice is empty), `SubnetMask` is `b[1:]`. -/
def Option1Decode (b : List Nat) : Option OptionInter :=
  match b with
  | [] => none
  | l :: rest => some (.Option1 1 l rest)

/-- `Option51.Decode`, called on `buf.Next(5)`. -/
def Option51Decode (b : List Nat) : Option OptionInter :=
  match b with
  | [] => none
  | l :: rest => some (.Option51 51 l rest)

/-- `Option53.Decode`, called on `buf.Next(2)`: reads `b[0]` and `b[1]`,
panicking when fewer than two bytes are available. -/
def Option53Decode (b : List Nat) : Option OptionInter :=
  match b with
  | l :: t :: _ => some (.Option53 53 l t)
  | _ => none

/-- `Option54.Decode`, called on `buf.Next(5)`: reads a length byte, then up
to four bytes of server identifier from the same slice. -/
def Option54Decode (b : List Nat) : Option OptionInter :=
  match b with
  | [] => none
  | l :: rest => some (.Option54 54 l (rest.take 4))

/-- `Option58.Decode`, called on `buf.Next(5)`. -/
def Option58Decode (b : List Nat) : Option OptionInter :=
  match b with
  | [] => none
  | l :: rest => some (.Option58 58 l rest)

/-- `Option59.Decode`, called on `buf.Next(5)`. -/
def Option59Decode (b : List Nat) : Option OptionInter :=
  match b with
  | [] => none
  | l :: rest => some (.Option59 59 l rest)

/-- `Option61.Decode`, called on the length-prefixed payload: hardware type is
`b[0]` (panic when empty), client identifier is `b[1:]`; the caller then
overwrites `Length` with the wire length byte, passed here as `l`. -/
def Option61Decode (l : Nat) (b : List Nat) : Option OptionInter :=
  match b with
  | [] => none
  | ht :: rest => some (.Option61 61 l ht rest)

/-- `Option108.Decode`, called on `buf.Next(5)`. -/
def Option108Decode (b : List Nat) : Option OptionInter :=
  match b with
  | [] => none
  | l :: rest => some (.Option108 108 l rest)

/-- The chunking loop of `Option3.Decode` / `Option6.Decode`: for
`i = 0, 4, 8, ...` while `i < length`, append `b[i : i+4]`; the Go slice
expression panics (`none`) when fewer than four bytes remain. -/
def chunks4 (len : Nat) (b : List Nat) : Option (List (List Nat)) :=
  if len = 0 then some []
  else if b.length < 4 then none
  else
    match chunks4 (len - 4) (b.drop 4) with
    | none => none
    | some rest => some (b.take 4 :: rest)
termination_by len
decreasing_by omega

/-- `ClientHardware`: 6-byte MAC plus 10-byte padding (each a byte list here,
since the source stores plain slices that may also be nil). -/
structure ClientHardware where
  HardwareAddress : List Nat
  HardwareAddressPadding : List Nat
deriving DecidableEq

/-- `ClientHardware.Encode`: address bytes then padding bytes. -/
def ClientHardware.Encode (c : ClientHardware) : List Nat :=
  c.HardwareAddress ++ c.HardwareAddressPadding

/-- Value of a hexadecimal digit character, or `none`. -/
def hexDigitVal (c : Char) : Option Nat :=
  if '0' ≤ c ∧ c ≤ '9' then some (c.toNat - '0'.toNat)
  else if 'a' ≤ c ∧ c ≤ 'f' then some (c.toNat - 'a'.toNat + 10)
  else if 'A' ≤ c ∧ c ≤ 'F' then some (c.toNat - 'A'.toNat + 10)
  else none

/-- Split a character list on colons. -/
def splitOnColon (cs : List Char) (cur : List Char) : List (List Char) :=
  match cs with
  | [] => [cur.reverse]
  | c :: rest =>
    if c = ':' then cur.reverse :: splitOnColon rest []
    else splitOnColon rest (c :: cur)

/-- Parse one two-hex-digit group. -/
def parseHexPair (p : List Char) : Option Nat :=
  match p with
  | [a, b] => do
    let x ← hexDigitVal a
    let y ← hexDigitVal b
    return x * 16 + y
  | _ => none

/-- Parse a list of two-hex-digit groups. -/
def parseHexPairs : List (List Char) → Option (List Nat)
  | [] => some []
  | p :: rest => do
    let b ← parseHexPair p
    let bs ← parseHexPairs rest
    return b :: bs

/-- Modelled from the spec: MAC-address text parsing is done in the source by
the Go standard library (`net.ParseMAC`), which is not part of this
repository. Restricted to the colon-separated six-octet form this client
uses: six colon-separated two-hex-digit groups parse to six bytes, anything
else fails. -/
def parseMAC (s : String) : Option (List Nat) :=
  let parts := splitOnColon s.data []
  if parts.length = 6 then parseHexPairs parts else none

/-- Modelled from the spec: IPv4-literal parsing is done in the source by the
Go standard library (`net.ParseIP` followed by `To4`), which is not part of
this repository. Four dot-separated decimal parts, each at most 255, parse to
four bytes; anything else fails. -/
def parseIPv4 (s : String) : Option (List Nat) :=
  let toPart (cs : List Char) : Option Nat :=
    if cs ≠ [] ∧ cs.all Char.isDigit ∧ cs.length ≤ 3 then
      let v := cs.foldl (fun acc c => acc * 10 + (c.toNat - '0'.toNat)) 0
      if v ≤ 255 then some v else none
    else none
  let parts := splitOnColon (s.data.map (fun c => if c = '.' then ':' else c)) []
  if parts.length = 4 then
    (parts.map toPart).foldr (fun p acc => do return (← p) :: (← acc)) (some [])
  else none

/-- `GenClientHardware`: parse the MAC text; on success the hardware address
plus ten zero padding bytes, on failure the Go function returns the zero
`ClientHardware` value together with the error (`none` here). -/
def GenClientHardware (mac : String) : Option ClientHardware :=
  (parseMAC mac).map (fun m => ⟨m, List.replicate 10 0⟩)

/-- The Go zero value `ClientHardware{}` (both slices nil). -/
def zeroClientHardware : ClientHardware := ⟨[], []⟩

/-- The DHCP `Message` struct. -/
structure Message where
  OpCode : Nat
  HardwareType : Nat
  HardwareLength : Nat
  Hops : Nat
  TransactionID : Nat
  SecondsElapsed : Nat
  Flags : Nat
  ClientIP : List Nat
  YourIP : List Nat
  NextServerIP : List Nat
  RelayAgentIP : List Nat
  ClientMAC : ClientHardware
  ServerHostName : List Nat
  BootFile : List Nat
  MagicCookie : List Nat
  Options : List OptionInter
  MessageType : MessageType
deriving DecidableEq

/-- The fixed magic cookie value. -/
def MagicCookieBytes : List Nat := [0x63, 0x82, 0x53, 0x63]

/-- `MinRequestLength`: minimum encoded datagram length. -/
def MinRequestLength : Nat := 300

/-- `Message.getOption`: first option with the given code, if any. -/
def Message.getOption (m : Message) (code : Nat) : Option OptionInter :=
  m.Options.find? (fun o => o.GetCode == code)

/-- `GenDiscoverMessage`: the Discover builder. A MAC that fails to parse is
silently ignored (`m.ClientMAC, _ = GenClientHardware(mac)`), leaving the
zero `ClientHardware`. -/
def GenDiscoverMessage (mac : String) (options : List OptionInter) : Message :=
  { OpCode := 1
    HardwareType := 1
    HardwareLength := 6
    Hops := 0
    TransactionID := 0
    SecondsElapsed := 0
    Flags := 0
    ClientIP := List.replicate 4 0
    YourIP := List.replicate 4 0
    NextServerIP := List.replicate 4 0
    RelayAgentIP := List.replicate 4 0
    ClientMAC := (GenClientHardware mac).getD zeroClientHardware
    ServerHostName := List.replicate 64 0
    BootFile := List.replicate 128 0
    MagicCookie := MagicCookieBytes
    Options := [GenOption53 MessageTypeDiscover, GenOption55] ++ options ++ [GenOption255]
    MessageType := MessageTypeDiscover }

/-- `GenDeclineMessage`: the Decline builder. -/
def GenDeclineMessage (mac : String) (declineIP : List Nat)
    (options : List OptionInter) : Message :=
  { OpCode := 1
    HardwareType := 1
    HardwareLength := 6
    Hops := 0
    TransactionID := 0
    SecondsElapsed := 0
    Flags := 0
    ClientIP := List.replicate 4 0
    YourIP := List.replicate 4 0
    NextServerIP := List.replicate 4 0
    RelayAgentIP := List.replicate 4 0
    ClientMAC := (GenClientHardware mac).getD zeroClientHardware
    ServerHostName := List.replicate 64 0
    BootFile := List.replicate 128 0
    MagicCookie := MagicCookieBytes
    Options := [GenOption53 MessageTypeDecline, GenOption55, GenOption50 declineIP]
      ++ options ++ [GenOption255]
    MessageType := MessageTypeDecline }

/-- `GenReleaseMessage`: the Release builder; also sets `ClientIP` to the
address being released. -/
def GenReleaseMessage (mac : String) (releaseIP : List Nat)
    (options : List OptionInter) : Message :=
  { OpCode := 1
    HardwareType := 1
    HardwareLength := 6
    Hops := 0
    TransactionID := 0
    SecondsElapsed := 0
    Flags := 0
    ClientIP := releaseIP
    YourIP := List.replicate 4 0
    NextServerIP := List.replicate 4 0
    RelayAgentIP := List.replicate 4 0
    ClientMAC := (GenClientHardware mac).getD zeroClientHardware
    ServerHostName := List.replicate 64 0
    BootFile := List.replicate 128 0
    MagicCookie := MagicCookieBytes
    Options := [GenOption53 MessageTypeRelease, GenOption55] ++ options ++ [GenOption255]
    MessageType := MessageTypeRelease }

/-- `GenRequestMessage`: the Request builder derived from an offer.
`SecondsElapsed` is a `uint16` in Go, so the increment wraps at 65536. -/
def GenRequestMessage (offer : Message) (options : List OptionInter) : Message :=
  { OpCode := 1
    HardwareType := 1
    HardwareLength := 6
    Hops := 0
    TransactionID := offer.TransactionID
    SecondsElapsed := (offer.SecondsElapsed + 1) % 65536
    Flags := 0
    ClientIP := List.replicate 4 0
    YourIP := List.replicate 4 0
    NextServerIP := List.replicate 4 0
    RelayAgentIP := List.replicate 4 0
    ClientMAC := offer.ClientMAC
    ServerHostName := List.replicate 64 0
    BootFile := List.replicate 128 0
    MagicCookie := MagicCookieBytes
    Options := [GenOption53 MessageTypeRequest, GenOption55, GenOption50 offer.YourIP]
      ++ options
      ++ (offer.getOption 54).toList
      ++ (offer.getOption 61).toList
      ++ [GenOption255]
    MessageType := MessageTypeRequest }

/-- The bytes `Message.Encode` writes before padding: the header fields in
declared order, then the concatenated option encodings. -/
def Message.EncodeRaw (m : Message) : List Nat :=
  [m.OpCode, m.HardwareType, m.HardwareLength, m.Hops]
    ++ Uint32ToBytes m.TransactionID
    ++ Uint16ToBytes m.SecondsElapsed
    ++ Uint16ToBytes m.Flags
    ++ m.ClientIP ++ m.YourIP ++ m.NextServerIP ++ m.RelayAgentIP
    ++ m.ClientMAC.Encode
    ++ m.ServerHostName ++ m.BootFile ++ m.MagicCookie
    ++ (m.Options.map OptionInter.Encode).flatten

/-- `Message.Encode`: the raw bytes, zero-padded up to `MinRequestLength`
(the Go loop writes `300 - len` zero bytes when that is positive). -/
def Message.Encode (m : Message) : List Nat :=
  m.EncodeRaw ++ List.replicate (MinRequestLength - m.EncodeRaw.length) 0

/-- The option loop of `Message.Decode`. `code` is the option byte already
read, `buf` the remaining buffer, `acc` the options accumulated so far and
`mt` the message-type byte recorded by case 53 (the struct's zero value 0
until then). The loop exits only through the default case, which keeps the
accumulated options; every other case appends its option and reads the next
code byte (`buf.Next(1)[0]`, a panic — `none` — when the buffer is empty).
`fuel` bounds the iteration count; each iteration consumes at least the one
code byte, so the `data.length + 1` supplied by `Message.Decode` is enough
and the `fuel = 0` branch is unreachable from there. -/
def decodeOptionsLoop (fuel : Nat) (code : Nat) (buf : List Nat)
    (acc : List OptionInter) (mt : Nat) : Option (List OptionInter × Nat) :=
  match fuel with
  | 0 => none
  | fuel + 1 =>
    if code = 1 then
      let (chunk, rest) := bufNext 5 buf
      match Option1Decode chunk with
      | none => none
      | some o =>
        match rest with
        | [] => none
        | c :: r => decodeOptionsLoop fuel c r (acc ++ [o]) mt
    else if code = 3 then
      match buf with
      | [] => none
      | l :: rest =>
        let (chunk, rest2) := bufNext l rest
        match chunks4 l chunk with
        | none => none
        | some routers =>
          match rest2 with
          | [] => none
          | c :: r => decodeOptionsLoop fuel c r (acc ++ [.Option3 3 l routers]) mt
    else if code = 6 then
      match buf with
      | [] => none
      | l :: rest =>
        let (chunk, rest2) := bufNext l rest
        match chunks4 l chunk with
        | none => none
        | some servers =>
          match rest2 with
          | [] => none
          | c :: r => decodeOptionsLoop fuel c r (acc ++ [.Option6 6 l servers]) mt
    else if code = 51 then
      let (chunk, rest) := bufNext 5 buf
      match Option51Decode chunk with
      | none => none
      | some o =>
        match rest with
        | [] => none
        | c :: r => decodeOptionsLoop fuel c r (acc ++ [o]) mt
    else if code = 53 then
      let (chunk, rest) := bufNext 2 buf
      match chunk with
      | l :: t :: _ =>
        match rest with
        | [] => none
        | c :: r => decodeOptionsLoop fuel c r (acc ++ [.Option53 53 l t]) t
      | _ => none
    else if code = 54 then
      let (chunk, rest) := bufNext 5 buf
      match Option54Decode chunk with
      | none => none
      | some o =>
        match rest with
        | [] => none
        | c :: r => decodeOptionsLoop fuel c r (acc ++ [o]) mt
    else if code = 58 then
      let (chunk, rest) := bufNext 5 buf
      match Option58Decode chunk with
      | none => none
      | some o =>
        match rest with
        | [] => none
        | c :: r => decodeOptionsLoop fuel c r (acc ++ [o]) mt
    else if code = 59 then
      let (chunk, rest) := bufNext 5 buf
      match Option59Decode chunk with
      | none => none
      | some o =>
        match rest with
        | [] => none
        | c :: r => decodeOptionsLoop fuel c r (acc ++ [o]) mt
    else if code = 61 then
      match buf with
      | [] => none
      | l :: rest =>
        let (chunk, rest2) := bufNext l rest
        match Option61Decode l chunk with
        | none => none
        | some o =>
          match rest2 with
          | [] => none
          | c :: r => decodeOptionsLoop fuel c r (acc ++ [o]) mt
    else if code = 108 then
      let (chunk, rest) := bufNext 5 buf
      match Option108Decode chunk with
      | none => none
      | some o =>
        match rest with
        | [] => none
        | c :: r => decodeOptionsLoop fuel c r (acc ++ [o]) mt
    else if code = 138 then
      match buf with
      | [] => none
      | l :: rest =>
        let (chunk, rest2) := bufNext l rest
        match rest2 with
        | [] => none
        | c :: r => decodeOptionsLoop fuel c r (acc ++ [.Option138 138 l chunk]) mt
    else if code = 255 then
      match buf with
      | [] => none
      | c :: r => decodeOptionsLoop fuel c r (acc ++ [.Option255 255]) mt
    else
      some (acc, mt)

/-- `Message.Decode`: consume the fixed header layout in order (each read via
`bufNext` / `next1` / `BytesToUint16` exactly as the source does), then run
the option loop starting from the first option byte. `none` marks a Go
runtime panic; the source performs no bounds checks of its own. -/
def Message.Decode (data : List Nat) : Option Message := do
  let (opCode, b) ← next1 data
  let (hardwareType, b) ← next1 b
  let (hardwareLength, b) ← next1 b
  let (hops, b) ← next1 b
  let (txBytes, b) := bufNext 4 b
  let transactionID := BytesToUint32 txBytes
  let (secBytes, b) := bufNext 2 b
  let secondsElapsed ← BytesToUint16 secBytes
  let (flagBytes, b) := bufNext 2 b
  let flags ← BytesToUint16 flagBytes
  let (clientIP, b) := bufNext 4 b
  let (yourIP, b) := bufNext 4 b
  let (nextServerIP, b) := bufNext 4 b
  let (relayAgentIP, b) := bufNext 4 b
  let (hwAddr, b) := bufNext 6 b
  let (hwPad, b) := bufNext 10 b
  let (serverHostName, b) := bufNext 64 b
  let (bootFile, b) := bufNext 128 b
  let (magicCookie, b) := bufNext 4 b
  let (optByte, b) ← next1 b
  let (options, mt) ← decodeOptionsLoop (b.length + 1) optByte b [] 0
  return { OpCode := opCode
           HardwareType := hardwareType
           HardwareLength := hardwareLength
           Hops := hops
           TransactionID := transactionID
           SecondsElapsed := secondsElapsed
           Flags := flags
           ClientIP := clientIP
           YourIP := yourIP
           NextServerIP := nextServerIP
           RelayAgentIP := relayAgentIP
           ClientMAC := ⟨hwAddr, hwPad⟩
           ServerHostName := serverHostName
           BootFile := bootFile
           MagicCookie := magicCookie
           Options := options
           MessageType := mt }

/-- `MaxRetryNum`: the NAK retry limit. -/
def MaxRetryNum : Nat := 1

/-- The client session state of `Conn` (the relay-capable version of the
source): the protocol-relevant fields, without the socket handle, the done
channel and the interface handle, which are I/O resources outside the
state machine. `retry` is a Go `int` that is only ever incremented from 0 or
reset to 0, hence a `Nat`. -/
structure Conn where
  TransactionID : Nat
  SecondsElapsed : Nat
  DhcpServerHost : String
  CurrentMessageType : MessageType
  HostName : String
  Mac : String
  MacByte : List Nat
  retry : Nat
  relay : List Nat
deriving DecidableEq

/-- `Conn.isRelay`: the relay address is not `0.0.0.0`. The source indexes
`c.relay[0] ... c.relay[3]`; the `Conn` constructor always installs a 4-byte
slice, rendered here with defaulted indexing. -/
def Conn.isRelay (c : Conn) : Bool :=
  !(c.relay.getD 0 0 == 0 && c.relay.getD 1 0 == 0
    && c.relay.getD 2 0 == 0 && c.relay.getD 3 0 == 0)

/-- The local port `Conn.listenUDP` binds: 68, or 67 for a relayed session. -/
def Conn.listenPort (c : Conn) : Nat :=
  if c.isRelay then 67 else 68

/-- The option list `Conn.Discovery` passes to `GenDiscoverMessage`. -/
def Conn.discoveryOptions (c : Conn) : List OptionInter :=
  let options := [GenOption51 7776000, GenOption57 1500, GenOption61 c.MacByte]
  if c.HostName ≠ "" then options ++ [GenOption12 c.HostName] else options

/-- The message `Conn.Discovery` builds and sends: the Discover with the
session's transaction ID, elapsed seconds and relay address patched in. -/
def Conn.discoveryMessage (c : Conn) : Message :=
  let m := GenDiscoverMessage c.Mac c.discoveryOptions
  { m with TransactionID := c.TransactionID
           SecondsElapsed := c.SecondsElapsed
           RelayAgentIP := c.relay }

/-- `Conn.Discovery` as a state transformer: it also records the outbound
message type in `CurrentMessageType`; the emitted message is returned. -/
def Conn.Discovery (c : Conn) : Conn × Message :=
  let m := c.discoveryMessage
  ({ c with CurrentMessageType := m.MessageType }, m)

/-- The option list `Conn.Decline` and `Conn.Release` pass to their builders:
server identifier, max message size and client identifier, plus the host
name when set. -/
def Conn.serverOptions (c : Conn) : List OptionInter :=
  let options := [GenOption54 ((parseIPv4 c.DhcpServerHost).getD []),
    GenOption57 1500, GenOption61 c.MacByte]
  if c.HostName ≠ "" then options ++ [GenOption12 c.HostName] else options

/-- The message `Conn.Decline` builds and sends. -/
def Conn.declineMessage (c : Conn) (declineIP : String) : Message :=
  let m := GenDeclineMessage c.Mac ((parseIPv4 declineIP).getD []) c.serverOptions
  { m with TransactionID := c.TransactionID
           SecondsElapsed := c.SecondsElapsed
           RelayAgentIP := c.relay }

/-- The message `Conn.Release` builds and sends. -/
def Conn.releaseMessage (c : Conn) (release : String) : Message :=
  let m := GenReleaseMessage c.Mac ((parseIPv4 release).getD []) c.serverOptions
  { m with TransactionID := c.TransactionID
           SecondsElapsed := c.SecondsElapsed
           RelayAgentIP := c.relay }

/-- The option list `Conn.handlerResponse` passes to `GenRequestMessage`
when answering an offer. -/
def Conn.handlerRequestOptions (c : Conn) : List OptionInter :=
  let options := [GenOption57 1500, GenOption51 7776000]
  if c.HostName ≠ "" then options ++ [GenOption12 c.HostName] else options

/-- The Request `Conn.handlerResponse` builds from an offer, with the relay
address patched in. -/
def Conn.handlerRequestMessage (c : Conn) (m : Message) : Message :=
  let requestMsg := GenRequestMessage m c.handlerRequestOptions
  { requestMsg with RelayAgentIP := c.relay }

/-- Result of one call to `Conn.handlerResponse`: the updated session state,
the messages written to the socket during the call, and its boolean result
(`true` means the receive loop signals completion and stops). -/
structure HandlerResult where
  conn : Conn
  sent : List Message
  done : Bool
deriving DecidableEq

/-- `Conn.handlerResponse` on an already decoded message `m` received from
source address `addr` (the string form the source compares against
`DhcpServerHost`). Mirrors the source statement for statement: the
transaction-ID filter, the NAK branch (increment retry, re-send Discover
only while `retry < MaxRetryNum` and awaiting an offer, otherwise compare
the source address), the unconditional `c.retry = 0` for every other
matching message, the offer-to-request step and the final ACK check. -/
def Conn.handlerResponse (c : Conn) (addr : String) (m : Message) : HandlerResult :=
  if m.TransactionID ≠ c.TransactionID then ⟨c, [], false⟩
  else if m.MessageType = MessageTypeNak then
    let c1 := { c with retry := c.retry + 1 }
    if c1.CurrentMessageType = MessageTypeDiscover ∧ c1.retry < MaxRetryNum then
      let (c2, msg) := c1.Discovery
      ⟨c2, [msg], false⟩
    else if addr ≠ c1.DhcpServerHost then ⟨c1, [], false⟩
    else ⟨c1, [], true⟩
  else
    let c1 := { c with retry := 0 }
    let step :=
      if c1.CurrentMessageType = MessageTypeDiscover ∧ m.MessageType = MessageTypeOffer then
        let requestMsg := c1.handlerRequestMessage m
        ({ c1 with SecondsElapsed := requestMsg.SecondsElapsed
                   CurrentMessageType := requestMsg.MessageType }, [requestMsg])
      else (c1, [])
    if step.1.CurrentMessageType = MessageTypeRequest ∧ m.MessageType = MessageTypeAck then
      ⟨step.1, step.2, true⟩
    else
      ⟨step.1, step.2, false⟩

/-- An all-zero `Message` value, used as the base for concrete test messages
(the Go zero value, with nil slices as empty lists). -/
def zeroMessage : Message :=
  { OpCode := 0, HardwareType := 0, HardwareLength := 0, Hops := 0,
    TransactionID := 0, SecondsElapsed := 0, Flags := 0,
    ClientIP := [], YourIP := [], NextServerIP := [], RelayAgentIP := [],
    ClientMAC := ⟨[], []⟩, ServerHostName := [], BootFile := [],
    MagicCookie := [], Options := [], MessageType := 0 }

/-- A concrete session state used by several witnesses: transaction ID 77,
awaiting an offer, server `10.0.0.68`, no relay. -/
def connAwaitingOffer : Conn :=
  { TransactionID := 77, SecondsElapsed := 0, DhcpServerHost := "10.0.0.68",
    CurrentMessageType := MessageTypeDiscover, HostName := "",
    Mac := "00:00:00:00:00:01", MacByte := [0, 0, 0, 0, 0, 1],
    retry := 0, relay := [0, 0, 0, 0] }

/-- A concrete offer for end-to-end scenario B: `YourIP = 10.0.0.5` and a
server-identifier option carrying `10.0.0.1`. -/
def offerB : Message :=
  { zeroMessage with
    OpCode := 2, TransactionID := 99, SecondsElapsed := 0,
    YourIP := [10, 0, 0, 5],
    Options := [.Option53 53 1 2, .Option54 54 4 [10, 0, 0, 1]],
    MessageType := MessageTypeOffer }

/-- The first 255 bytes of the encoding of the Discover built for MAC
`00:00:00:00:00:01` (any extra options): the 240-byte fixed header, option
53 (Discover) and the full option 55, written out segment by segment.
Message decode stops inside this prefix (at the code byte 55), so the bytes
after it never influence the decoded message. -/
def discoverPrefix : List Nat :=
  [1, 1, 6, 0] ++ [0, 0, 0, 0] ++ [0, 0] ++ [0, 0]
    ++ List.replicate 4 0 ++ List.replicate 4 0 ++ List.replicate 4 0 ++ List.replicate 4 0
    ++ ([0, 0, 0, 0, 0, 1] ++ List.replicate 10 0)
    ++ List.replicate 64 0 ++ List.replicate 128 0
    ++ [0x63, 0x82, 0x53, 0x63]
    ++ [53, 1, 1] ++ [55, 10, 1, 3, 6, 15, 46, 108, 114, 119, 121, 252]

/-!  Theorems settling the claims.  -/

set_option maxRecDepth 16384 in
/-- The encoding of the Discover for MAC `00:00:00:00:00:01` is
`discoverPrefix` followed by the extra options' encodings, the end option
and the zero padding. -/
theorem discover_encode_eq (extra : List OptionInter) :
    Message.Encode (GenDiscoverMessage "00:00:00:00:00:01" extra) =
      discoverPrefix ++ ((List.map OptionInter.Encode extra).flatten ++ [255]
        ++ List.replicate (MinRequestLength -
              ((GenDiscoverMessage "00:00:00:00:00:01" extra).EncodeRaw).length) 0) := by
  simp [Message.Encode, Message.EncodeRaw, discoverPrefix, GenDiscoverMessage,
    show GenClientHardware "00:00:00:00:00:01" = some ⟨[0, 0, 0, 0, 0, 1], List.replicate 10 0⟩
      from rfl,
    ClientHardware.Encode, MagicCookieBytes, GenOption53, GenOption55, GenOption255,
    OptionInter.Encode, MessageTypeDiscover,
    show Uint32ToBytes 0 = [0, 0, 0, 0] from rfl,
    show Uint16ToBytes 0 = [0, 0] from rfl,
    List.map_append, List.flatten_append, List.append_assoc]

set_option maxRecDepth 16384 in
/-- Decoding any datagram that starts with `discoverPrefix` yields the
Discover header fields and exactly the option-53 record, whatever follows:
the option loop stops at the unrecognized code byte 55. -/
theorem discover_decode_prefix (t : List Nat) :
    Message.Decode (discoverPrefix ++ t) =
      some { OpCode := 1, HardwareType := 1, HardwareLength := 6, Hops := 0,
             TransactionID := 0, SecondsElapsed := 0, Flags := 0,
             ClientIP := List.replicate 4 0, YourIP := List.replicate 4 0,
             NextServerIP := List.replicate 4 0, RelayAgentIP := List.replicate 4 0,
             ClientMAC := ⟨[0, 0, 0, 0, 0, 1], List.replicate 10 0⟩,
             ServerHostName := List.replicate 64 0, BootFile := List.replicate 128 0,
             MagicCookie := MagicCookieBytes,
             Options := [.Option53 53 1 1],
             MessageType := MessageTypeDiscover } := by rfl

/-- C1: the claim says message decode never reads past the end of the buffer
or crashes, and that a datagram shorter than the 240-byte fixed header fails
safely because every fixed-size read is bounds-checked. The code performs no
bounds checks: `Message.Decode` evaluates `buf.Next(1)[0]` (and
`BytesToUint16` evaluates `data[0]`) on empty slices, a runtime panic
(`none` in this model). This theorem shows that decoding EVERY datagram of
at most 240 bytes panics, contradicting the claim; the code, not the claim,
is at fault, since the spec mandates explicit bounds checks and a
malformed-message outcome. -/
theorem C1_decode_short_datagram_panics (data : List Nat) (h : data.length ≤ 240) :
    Message.Decode data = none := by
  obtain _ | ⟨a1, _ | ⟨a2, _ | ⟨a3, _ | ⟨a4, t⟩⟩⟩⟩ := data
  · rfl
  · rfl
  · rfl
  · rfl
  · have hdrop : List.drop 236 t = [] := by
      refine List.drop_eq_nil_of_le ?_
      simp only [List.length_cons] at h
      omega
    simp only [Message.Decode, next1, bufNext, Option.bind_eq_bind, Option.some_bind, bind]
    rcases hsec : BytesToUint16 (List.take 2 (List.drop 4 t)) with _ | s
    · simp [hsec]
    · rcases hflag : BytesToUint16 (List.take 2 (List.drop 2 (List.drop 4 t))) with _ | f
      · simp [hsec, hflag]
      · simp [hsec, hflag, next1, hdrop]

/-- C1 witness: a concrete 240-byte all-zero datagram makes decode panic. -/
theorem C1_decode_short_datagram_panics_witness :
    Message.Decode (List.replicate 240 0) = none :=
  C1_decode_short_datagram_panics (List.replicate 240 0) (by rw [List.length_replicate])

set_option maxRecDepth 8192 in
/-- C2 counterexample: the claim says decoding the encoding of a built
Discover recovers option 53, option 61 and option 55 with its parameter
list. The Discover built for MAC `00:00:00:00:00:01` carries options with
codes 53, 55, 255, but decoding its encoding keeps only option 53: the
decode switch has no case for code 55, so option parsing stops there and
options 55 and 61 are never recovered. -/
theorem C2_roundtrip_counterexample :
    (GenDiscoverMessage "00:00:00:00:00:01" []).Options.map OptionInter.GetCode
      = [53, 55, 255] ∧
    (Message.Decode (Message.Encode (GenDiscoverMessage "00:00:00:00:00:01" []))).map
      (fun d => d.Options.map OptionInter.GetCode) = some [53] := by
  constructor
  · rfl
  · rfl

set_option maxRecDepth 16384 in
/-- C2 amended: decoding the encoding of the Discover built for MAC
`00:00:00:00:00:01`, with ANY list of extra options, succeeds and
reproduces every fixed header field and the message type (via option 53),
but the decoded option list is exactly the single option-53 record: option
parsing stops at code 55, which `Message.Decode` does not recognize, so
options 55 and 61 and the extra options are not recovered. For a MAC that
fails to parse, even the header does not round-trip: the builder's
zero-length chaddr misaligns the encoding, and decoding the Discover built
for the malformed MAC `zz` yields message type 0 and a wrong magic
cookie. -/
theorem C2_roundtrip_amended (extra : List OptionInter) :
    Message.Decode (Message.Encode (GenDiscoverMessage "00:00:00:00:00:01" extra)) =
      some { OpCode := 1, HardwareType := 1, HardwareLength := 6, Hops := 0,
             TransactionID := 0, SecondsElapsed := 0, Flags := 0,
             ClientIP := List.replicate 4 0, YourIP := List.replicate 4 0,
             NextServerIP := List.replicate 4 0, RelayAgentIP := List.replicate 4 0,
             ClientMAC := ⟨[0, 0, 0, 0, 0, 1], List.replicate 10 0⟩,
             ServerHostName := List.replicate 64 0, BootFile := List.replicate 128 0,
             MagicCookie := MagicCookieBytes,
             Options := [.Option53 53 1 1],
             MessageType := MessageTypeDiscover } ∧
    (Message.Decode (Message.Encode (GenDiscoverMessage "zz" []))).map
      (fun d => (d.MessageType, d.MagicCookie)) = some (0, [119, 121, 252, 255]) := by
  constructor
  · rw [discover_encode_eq]
    exact discover_decode_prefix _
  · rfl

/-- C3 counterexample: the claim says a session in `AwaitingOffer` receiving
consecutive matching NAKs re-sends a Discover exactly once before resolving.
Processing two matching NAKs from a non-server address on a concrete
awaiting-offer session sends nothing at all on either NAK: the handler
increments the retry counter before comparing it with `MaxRetryNum = 1`, so
the re-send branch never fires. -/
theorem C3_nak_retry_counterexample :
    (connAwaitingOffer.handlerResponse "10.0.0.9:67"
      { zeroMessage with TransactionID := 77, MessageType := MessageTypeNak }).sent = [] ∧
    (connAwaitingOffer.handlerResponse "10.0.0.9:67"
      { zeroMessage with TransactionID := 77, MessageType := MessageTypeNak }).done = false ∧
    ((connAwaitingOffer.handlerResponse "10.0.0.9:67"
        { zeroMessage with TransactionID := 77, MessageType := MessageTypeNak }).conn.handlerResponse
      "10.0.0.9:67"
      { zeroMessage with TransactionID := 77, MessageType := MessageTypeNak }).sent = [] ∧
    ((connAwaitingOffer.handlerResponse "10.0.0.9:67"
        { zeroMessage with TransactionID := 77, MessageType := MessageTypeNak }).conn.handlerResponse
      "10.0.0.9:67"
      { zeroMessage with TransactionID := 77, MessageType := MessageTypeNak }).conn.retry = 2 := by
  refine ⟨rfl, rfl, rfl, rfl⟩

/-- C3 amended: with retry limit 1 the session never re-sends Discover,
because the handler increments the retry counter before the
`retry < MaxRetryNum` comparison, making the re-send branch unreachable. On
every matching NAK received while awaiting an offer the session sends
nothing, increments the retry counter, and reaches `Done` (failure) exactly
when the NAK's source address equals the configured server host; otherwise
the NAK is ignored and the session remains unresolved. -/
theorem C3_nak_behavior (c : Conn) (addr : String) (m : Message)
    (hcur : c.CurrentMessageType = MessageTypeDiscover)
    (htx : m.TransactionID = c.TransactionID)
    (hm : m.MessageType = MessageTypeNak) :
    (c.handlerResponse addr m).conn = { c with retry := c.retry + 1 } ∧
    (c.handlerResponse addr m).sent = [] ∧
    ((c.handlerResponse addr m).done = true ↔ addr = c.DhcpServerHost) := by
  have hlim : ¬({ c with retry := c.retry + 1 } : Conn).retry < MaxRetryNum := by
    simp [MaxRetryNum]
  by_cases haddr : addr = c.DhcpServerHost <;>
    simp [Conn.handlerResponse, htx, hm, hcur, hlim, haddr]

/-- C3 witness: the amended behavior at concrete inputs — a matching NAK
from a non-server source is ignored (retry goes to 1), and one from the
configured server host completes the session. -/
theorem C3_nak_behavior_witness :
    ((connAwaitingOffer.handlerResponse "10.0.0.9:67"
        { zeroMessage with TransactionID := 77, MessageType := MessageTypeNak }).done = true
      ↔ ("10.0.0.9:67" : String) = "10.0.0.68") ∧
    (connAwaitingOffer.handlerResponse "10.0.0.68"
      { zeroMessage with TransactionID := 77, MessageType := MessageTypeNak }).conn.retry = 1 ∧
    (connAwaitingOffer.handlerResponse "10.0.0.68"
      { zeroMessage with TransactionID := 77, MessageType := MessageTypeNak }).done = true := by
  refine ⟨?_, ?_, ?_⟩
  · exact (C3_nak_behavior connAwaitingOffer "10.0.0.9:67"
      { zeroMessage with TransactionID := 77, MessageType := MessageTypeNak }
      rfl rfl rfl).2.2
  · exact congrArg Conn.retry (C3_nak_behavior connAwaitingOffer "10.0.0.68"
      { zeroMessage with TransactionID := 77, MessageType := MessageTypeNak }
      rfl rfl rfl).1
  · exact (C3_nak_behavior connAwaitingOffer "10.0.0.68"
      { zeroMessage with TransactionID := 77, MessageType := MessageTypeNak }
      rfl rfl rfl).2.2.mpr rfl

/-- C4 counterexample: the claim says the Request's elapsed-seconds equals
the offer's elapsed-seconds plus 1 for every offer. `SecondsElapsed` is a Go
`uint16`, so for an offer at the maximal value 65535 (wire bytes `FF FF`)
the increment wraps: the built Request carries 0, not 65536. -/
theorem C4_wrap_counterexample :
    (GenRequestMessage { zeroMessage with SecondsElapsed := 65535 } []).SecondsElapsed = 0 ∧
    ({ zeroMessage with SecondsElapsed := 65535 } : Message).SecondsElapsed + 1 = 65536 := by
  exact ⟨rfl, rfl⟩

/-- C4 amended: `GenRequestMessage` reuses the offer's transaction ID and
client MAC, sets elapsed-seconds to the offer's elapsed-seconds plus 1
modulo 65536 (the field is a `uint16`; an offer at 65535 wraps to 0), and
lays out its options as: option 53 = Request, option 55, option 50 carrying
the offer's `YourIP`, the extra options, then the offer's first option 54
and first option 61 copied unchanged when present, then option 255. -/
theorem C4_request_builder (offer : Message) (extra : List OptionInter) :
    (GenRequestMessage offer extra).TransactionID = offer.TransactionID ∧
    (GenRequestMessage offer extra).ClientMAC = offer.ClientMAC ∧
    (GenRequestMessage offer extra).SecondsElapsed = (offer.SecondsElapsed + 1) % 65536 ∧
    (GenRequestMessage offer extra).Options =
      [GenOption53 MessageTypeRequest, GenOption55, GenOption50 offer.YourIP]
        ++ extra ++ (offer.getOption 54).toList ++ (offer.getOption 61).toList
        ++ [GenOption255] := by
  refine ⟨rfl, rfl, rfl, ?_⟩
  cases h54 : offer.getOption 54 <;> cases h61 : offer.getOption 61 <;>
    simp [GenRequestMessage, h54, h61]

/-- C4 witness: end-to-end scenario B. The Request built from the concrete
offer with `YourIP = 10.0.0.5` and server identifier `10.0.0.1` carries
option 50 with payload `10.0.0.5`, copies the offer's option 54 unchanged,
and increments the elapsed seconds from 0 to 1. -/
theorem C4_request_builder_witness :
    (GenRequestMessage offerB []).SecondsElapsed = 1 ∧
    (GenRequestMessage offerB []).TransactionID = 99 ∧
    (GenRequestMessage offerB []).Options =
      [GenOption53 MessageTypeRequest, GenOption55, GenOption50 [10, 0, 0, 5],
       .Option54 54 4 [10, 0, 0, 1], GenOption255] := by
  have h := C4_request_builder offerB []
  refine ⟨?_, h.1, ?_⟩
  · rw [h.2.2.1]
    rfl
  · rw [h.2.2.2]
    rfl

/-- C5: a decoded inbound message whose transaction ID differs from the
session's is discarded silently: the entire session state is unchanged,
nothing is sent, and completion is not signalled, regardless of message
type. -/
theorem C5_txid_filter (c : Conn) (addr : String) (m : Message)
    (h : m.TransactionID ≠ c.TransactionID) :
    c.handlerResponse addr m = ⟨c, [], false⟩ := by
  simp [Conn.handlerResponse, h]

/-- C5 witness: a concrete NAK with a foreign transaction ID leaves a
concrete session untouched. -/
theorem C5_txid_filter_witness :
    connAwaitingOffer.handlerResponse "10.0.0.68"
      { zeroMessage with TransactionID := 78, MessageType := MessageTypeNak } =
      ⟨connAwaitingOffer, [], false⟩ :=
  C5_txid_filter connAwaitingOffer "10.0.0.68"
    { zeroMessage with TransactionID := 78, MessageType := MessageTypeNak } (by decide)

/-- C6: every encoded message is zero-padded to at least 300 bytes, and a
message whose natural (pre-padding) encoding exceeds 300 bytes is not
truncated: its encoded length equals the natural length. -/
theorem C6_padding (m : Message) :
    300 ≤ (Message.Encode m).length ∧
    (300 < m.EncodeRaw.length → (Message.Encode m).length = m.EncodeRaw.length) := by
  unfold Message.Encode MinRequestLength
  constructor
  · simp only [List.length_append, List.length_replicate]
    omega
  · intro h
    simp only [List.length_append, List.length_replicate]
    omega

set_option maxRecDepth 8192 in
/-- C6 witness: a concrete message with a 400-byte boot-file field has a
natural encoding longer than 300 bytes and is encoded without padding or
truncation. -/
theorem C6_padding_witness :
    300 ≤ (Message.Encode { zeroMessage with BootFile := List.replicate 400 0 }).length ∧
    (Message.Encode { zeroMessage with BootFile := List.replicate 400 0 }).length =
      ({ zeroMessage with BootFile := List.replicate 400 0 } : Message).EncodeRaw.length := by
  refine ⟨(C6_padding _).1, (C6_padding _).2 ?_⟩
  decide

set_option maxRecDepth 8192 in
/-- C7 counterexample: the claim says option code 255 consumes exactly one
byte and stops option parsing. On a concrete datagram whose option area is
`255, 53, 1, 2, 0`, the decoder records the end option and then keeps
parsing: it also decodes the following option 53 (even overwriting the
cached message type with Offer) before stopping at the unrecognized byte 0.
So bytes after a 255 are still interpreted. -/
theorem C7_end_option_counterexample :
    (Message.Decode (List.replicate 240 0 ++ [255, 53, 1, 2, 0])).map
      (fun d => (d.Options, d.MessageType)) =
      some ([.Option255 255, .Option53 53 1 2], MessageTypeOffer) := by rfl

/-- C7 amended: during option decode, an unrecognized option code (one
outside the switch's cases 1, 3, 6, 51, 53, 54, 58, 59, 61, 108, 138, 255)
stops option parsing immediately, keeping the options already parsed and
leaving the remaining bytes uninterpreted. Option 255, however, does not
stop parsing: the decoder records the end option and continues with the
next code byte (a panic when the buffer is already empty). -/
theorem C7_option_parsing_stop (fuel code : Nat) (buf : List Nat)
    (acc : List OptionInter) (mt : Nat)
    (h : code ∉ ([1, 3, 6, 51, 53, 54, 58, 59, 61, 108, 138, 255] : List Nat)) :
    decodeOptionsLoop (fuel + 1) code buf acc mt = some (acc, mt) ∧
    decodeOptionsLoop (fuel + 1) 255 buf acc mt =
      (match buf with
       | [] => none
       | c :: r => decodeOptionsLoop fuel c r (acc ++ [.Option255 255]) mt) := by
  simp only [List.mem_cons, List.not_mem_nil, or_false, not_or] at h
  obtain ⟨h1, h3, h6, h51, h53, h54, h58, h59, h61, h108, h138, h255⟩ := h
  constructor
  · simp only [decodeOptionsLoop, if_neg h1, if_neg h3, if_neg h6, if_neg h51,
      if_neg h53, if_neg h54, if_neg h58, if_neg h59, if_neg h61, if_neg h108,
      if_neg h138, if_neg h255]
  · simp [decodeOptionsLoop]

/-- C7 witness: at code byte 0 (a padding byte, not a recognized option) the
loop stops and keeps the accumulated options; at code byte 255 with a
nonempty rest it continues on to the next byte. -/
theorem C7_option_parsing_stop_witness :
    decodeOptionsLoop 2 0 [53, 1, 2] [.Option255 255] 0 = some ([.Option255 255], 0) ∧
    decodeOptionsLoop 2 255 [0] [] 0 = decodeOptionsLoop 1 0 [] [.Option255 255] 0 := by
  have h := C7_option_parsing_stop 1 0 [53, 1, 2] [.Option255 255] 0 (by decide)
  have h2 := C7_option_parsing_stop 1 0 [0] [] 0 (by decide)
  exact ⟨h.1, h2.2⟩

/-- C8: every outbound message a session builds — the Discover, the Request
answering an offer, the Decline and the Release — carries the session's
relay address in its relay-agent IP field; a session whose relay address is
non-zero listens on port 67, and one whose relay address is `0.0.0.0`
listens on port 68. -/
theorem C8_relay (c : Conn) (declineIP release : String) (offer : Message) :
    c.discoveryMessage.RelayAgentIP = c.relay ∧
    (c.handlerRequestMessage offer).RelayAgentIP = c.relay ∧
    (c.declineMessage declineIP).RelayAgentIP = c.relay ∧
    (c.releaseMessage release).RelayAgentIP = c.relay ∧
    (c.isRelay = true → c.listenPort = 67) ∧
    (c.isRelay = false → c.listenPort = 68) := by
  refine ⟨rfl, rfl, rfl, rfl, ?_, ?_⟩ <;> intro h <;> simp [Conn.listenPort, h]

/-- C8 witness: a concrete session with relay address `10.0.0.1` stamps that
address into its Discover and listens on port 67; the same session with
relay `0.0.0.0` listens on port 68. -/
theorem C8_relay_witness :
    ({ connAwaitingOffer with relay := [10, 0, 0, 1] } : Conn).discoveryMessage.RelayAgentIP
      = [10, 0, 0, 1] ∧
    ({ connAwaitingOffer with relay := [10, 0, 0, 1] } : Conn).listenPort = 67 ∧
    connAwaitingOffer.listenPort = 68 := by
  have h1 := C8_relay { connAwaitingOffer with relay := [10, 0, 0, 1] } "" "" zeroMessage
  have h2 := C8_relay connAwaitingOffer "" "" zeroMessage
  exact ⟨h1.1, h1.2.2.2.2.1 (by decide), h2.2.2.2.2.2 (by decide)⟩

/-- C9 counterexample: the claim says that on a matching message whose
(state, type) pair is none of the documented transitions nothing about the
session changes, including the retry counter. A concrete session in the
request-sent state with retry counter 1 that receives a matching Offer (not
a documented transition for that state) gets its retry counter reset to 0:
the handler zeroes `retry` unconditionally for every matching non-NAK
message. -/
theorem C9_retry_reset_counterexample :
    ({ connAwaitingOffer with CurrentMessageType := MessageTypeRequest, retry := 1 } : Conn).retry
        = 1 ∧
    (({ connAwaitingOffer with CurrentMessageType := MessageTypeRequest, retry := 1 } : Conn).handlerResponse
      "10.0.0.68"
      { zeroMessage with TransactionID := 77, MessageType := MessageTypeOffer }).conn.retry = 0 ∧
    (({ connAwaitingOffer with CurrentMessageType := MessageTypeRequest, retry := 1 } : Conn).handlerResponse
      "10.0.0.68"
      { zeroMessage with TransactionID := 77, MessageType := MessageTypeOffer }).sent = [] := by
  refine ⟨rfl, rfl, rfl⟩

/-- C9 amended: on a matching inbound message whose (state, type) pair is
not a documented transition (not a NAK, not an Offer while awaiting an
offer, not an Ack while awaiting an ack), the handler sends nothing, does
not signal completion, and leaves the current state and elapsed-seconds
unchanged — but it does reset the retry counter to 0, which it does for
every matching non-NAK message. -/
theorem C9_ignore_frame (c : Conn) (addr : String) (m : Message)
    (htx : m.TransactionID = c.TransactionID)
    (hnak : m.MessageType ≠ MessageTypeNak)
    (hoffer : ¬(c.CurrentMessageType = MessageTypeDiscover ∧ m.MessageType = MessageTypeOffer))
    (hack : ¬(c.CurrentMessageType = MessageTypeRequest ∧ m.MessageType = MessageTypeAck)) :
    c.handlerResponse addr m = ⟨{ c with retry := 0 }, [], false⟩ := by
  have h1 : ¬m.TransactionID ≠ c.TransactionID := by simp [htx]
  unfold Conn.handlerResponse
  rw [if_neg h1, if_neg hnak]
  simp only []
  rw [if_neg hoffer, if_neg hack]

/-- C9 witness: a concrete matching Ack received while still awaiting an
offer is ignored — same state and elapsed-seconds, nothing sent, no
completion (only the retry counter is reset, here already 0). -/
theorem C9_ignore_frame_witness :
    connAwaitingOffer.handlerResponse "10.0.0.68"
      { zeroMessage with TransactionID := 77, MessageType := MessageTypeAck } =
      ⟨{ connAwaitingOffer with retry := 0 }, [], false⟩ :=
  C9_ignore_frame connAwaitingOffer "10.0.0.68"
    { zeroMessage with TransactionID := 77, MessageType := MessageTypeAck }
    rfl (by decide) (by decide) (by decide)

/-- C10: a MAC string that fails hardware-address parsing is silently
ignored by the builders (`m.ClientMAC, _ = GenClientHardware(mac)`): each of
`GenDiscoverMessage`, `GenDeclineMessage` and `GenReleaseMessage` still
returns a message, whose client-hardware field is the zero `ClientHardware`
value, and that zero value encodes to zero bytes instead of the 16-byte
chaddr field. -/
theorem C10_mac_failure (mac : String) (opts : List OptionInter) (dIP rIP : List Nat)
    (h : parseMAC mac = none) :
    (GenDiscoverMessage mac opts).ClientMAC = zeroClientHardware ∧
    (GenDeclineMessage mac dIP opts).ClientMAC = zeroClientHardware ∧
    (GenReleaseMessage mac rIP opts).ClientMAC = zeroClientHardware ∧
    zeroClientHardware.Encode = [] := by
  refine ⟨?_, ?_, ?_, rfl⟩ <;>
    simp [GenDiscoverMessage, GenDeclineMessage, GenReleaseMessage, GenClientHardware, h]

/-- C10 witness: the malformed MAC text `zz` fails to parse, and the
Discover built from it carries the empty client-hardware value. -/
theorem C10_mac_failure_witness :
    parseMAC "zz" = none ∧
    (GenDiscoverMessage "zz" []).ClientMAC = zeroClientHardware ∧
    (GenDiscoverMessage "zz" []).ClientMAC.Encode.length = 0 := by
  have h := C10_mac_failure "zz" [] [] [] (by rfl)
  exact ⟨rfl, h.1, by rw [h.1]; rfl⟩

end Dhcp4
